import Mathlib

/-!
Verification development for the transaction-demo dApp front end.

The definitions below are a shallow embedding of the repository's
TypeScript source:

* `ChainDataService` and its four operations embed
  `src/unnamed/part_005` (`chainDataService.ts`).
* `TransferForm.handleSubmit` and `TransferForm.fetchTransactionHistory`
  embed `src/react-app/src/components/TransferForm.tsx` (the unnamed file
  `src/unnamed/part_002` is an earlier draft of the same handler with the
  identical control flow on the properties considered here).
* `Header.handleNetworkChange` embeds
  `src/react-app/src/components/Header.tsx` (and `src/unnamed/part_003`,
  which has the same switch/add-chain control flow).
* `MessageForm.fetchMessageHistory` embeds
  `src/react-app/src/components/MessageForm.tsx`.

Asynchronous wallet/RPC interactions are modelled by environments of
response values (`Except` for promises that may reject, `Option` for
null results), and the handlers are modelled as pure functions that
produce their result together with the list of wallet/RPC requests they
issue, or as a trace of UI/network events where the ordering of effects
is the property under study.  `ethers.isAddress` (EIP-55 keccak checksum
validation) and `ethers.parseEther` are library functions external to
the repository and are modelled as environment-supplied functions.
-/

namespace TransactionDemo

/-- JavaScript `String.prototype.toLowerCase` on the character list
(kernel-computable model; the addresses involved are ASCII). -/
def jsToLower (s : String) : String := String.mk (s.data.map Char.toLower)

/-- JavaScript `String.prototype.trim` (kernel-computable model). -/
def jsTrim (s : String) : String :=
  String.mk ((s.data.dropWhile Char.isWhitespace).reverse.dropWhile Char.isWhitespace).reverse

/-- JavaScript `String.prototype.startsWith` (kernel-computable model). -/
def jsStartsWith (s p : String) : Bool := p.data.isPrefixOf s.data

/-- Left-pad a string with `'0'` up to length `n`. -/
def padLeftZeros (s : String) (n : Nat) : String :=
  String.mk (List.replicate (n - s.length) '0') ++ s

/-- Drop trailing `'0'` characters. -/
def trimTrailingZeros (s : String) : String :=
  String.mk (s.data.reverse.dropWhile (fun c => c = '0')).reverse

/-- Model of ethers v6 `formatUnits`: render an integer amount of base
units as a decimal string with `decimals` fractional digits, trimming
trailing zeros but keeping at least one fractional digit
(`formatUnits 0 18 = "0.0"`). -/
def formatUnits (value : Int) (decimals : Nat) : String :=
  let v := value.natAbs
  let base := 10 ^ decimals
  let whole := v / base
  let fracRaw := trimTrailingZeros (padLeftZeros (toString (v % base)) decimals)
  let frac := if fracRaw = "" then "0" else fracRaw
  (if value < 0 then "-" else "") ++ toString whole ++ "." ++ frac

/-- ethers `formatEther` = `formatUnits` with 18 decimals. -/
def formatEther (value : Int) : String := formatUnits value 18

/-- A transaction object as returned by the RPC client
(ethers `TransactionResponse`).  `sender`/`toAddr` stand for the
`from`/`to` fields (`from` is a Lean keyword). -/
structure Tx where
  hash : String
  blockNumber : Option Int
  sender : String
  toAddr : Option String
  value : Int
  gasPrice : Option Int
  gasLimit : Int
  data : String
deriving DecidableEq, BEq, Repr

/-- A transaction receipt (ethers `TransactionReceipt`): execution status
is `some 1` on success, `some 0` on failure, `none` when absent. -/
structure Receipt where
  gasUsed : Int
  status : Option Int
deriving DecidableEq, BEq, Repr

/-- A block as returned by the RPC client; `transactions` is the list of
transaction hashes. -/
structure Block where
  number : Int
  hash : Option String
  timestamp : Int
  transactions : List String
  gasUsed : Int
  gasLimit : Int
  miner : String
deriving DecidableEq, BEq, Repr

/-- The `TransactionData` interface of `chainDataService.ts`. -/
structure TransactionData where
  hash : String
  blockNumber : Int
  sender : String
  toAddr : Option String
  value : String
  gasPrice : String
  gasUsed : String
  timestamp : Int
  status : Int
deriving DecidableEq, BEq, Repr

/-- The `BlockData` interface of `chainDataService.ts`. -/
structure BlockData where
  number : Int
  hash : String
  timestamp : Int
  transactions : Nat
  gasUsed : String
  gasLimit : String
  miner : String
deriving DecidableEq, BEq, Repr

/-- The `AccountBalance` interface of `chainDataService.ts`. -/
structure AccountBalance where
  address : String
  balance : String
  balanceInEth : String
deriving DecidableEq, BEq, Repr

/-- A JSON-RPC request issued by the chain data service. -/
inductive Req where
  | getBlockNumber
  | getLatestBlockFull
  | getBlockFull (n : Int)
  | getBlockByNumber (n : Int)
  | getTransaction (h : String)
  | getTransactionReceipt (h : String)
  | getBalance (a : String)
deriving DecidableEq, BEq, Repr

/-- Result of a service operation: the value produced (or the message of
the rethrown error) together with the list of RPC requests issued. -/
def NetM (α : Type) : Type := Except String α × List Req

/-- Return a value, issuing no request. -/
def pureN {α : Type} (a : α) : NetM α := (Except.ok a, [])

/-- Issue one RPC request whose response is `r`. -/
def callP {α : Type} (r : Except String α) (req : Req) : NetM α := (r, [req])

/-- Sequence two instrumented computations; a rejected promise
propagates (the service's `catch` blocks log and rethrow). -/
def bindN {α β : Type} (m : NetM α) (k : α → NetM β) : NetM β :=
  match m.1 with
  | Except.error e => (Except.error e, m.2)
  | Except.ok a => ((k a).1, m.2 ++ (k a).2)

/-- The RPC responses visible through the ethers `BrowserProvider`:
`Except.error` models a rejected promise, `Option` models a `null`
result of a fulfilled promise. -/
structure Provider where
  blockNumber : Except String Int
  latestBlockFull : Except String (Option Block)
  getBlockFull : Int → Except String (Option Block)
  getBlockByNumber : Int → Except String (Option Block)
  getTransaction : String → Except String (Option Tx)
  getTransactionReceipt : String → Except String (Option Receipt)
  getBalance : String → Except String Int

/-- The injected `window.ethereum` object; `providerView` is the RPC
behavior obtained by wrapping it in `new ethers.BrowserProvider(...)`. -/
structure EthereumObject where
  providerView : Provider

/-- The `ChainDataService` class: holds the provider created by
`initializeProvider`, or `none` when no wallet was injected. -/
structure ChainDataService where
  provider : Option Provider

/-- The constructor plus `initializeProvider`: the provider exists iff
`window.ethereum` does. -/
def mkChainDataService (windowEthereum : Option EthereumObject) : ChainDataService :=
  { provider := windowEthereum.map (fun e => e.providerView) }

/-- The `TransactionData` object literal pushed by both
`getLatestTransactions` and `searchTransactionsByAddress`
(`tx.blockNumber || 0`, `tx.gasPrice || 0`, `receipt.status || 0`). -/
def txRecord (tx : Tx) (receipt : Receipt) (blockTimestamp : Int) : TransactionData :=
  { hash := tx.hash
    blockNumber := tx.blockNumber.getD 0
    sender := tx.sender
    toAddr := tx.toAddr
    value := formatEther tx.value
    gasPrice := formatUnits (tx.gasPrice.getD 0) 9
    gasUsed := toString receipt.gasUsed
    timestamp := blockTimestamp
    status := receipt.status.getD 0 }

/-- The per-hash body of the loop in `getLatestTransactions`: fetch the
transaction and its receipt, and push a record when both are non-null. -/
def latestTxLoop (p : Provider) (ts : Int) : List String → NetM (List TransactionData)
  | [] => pureN []
  | h :: rest =>
    bindN (callP (p.getTransaction h) (Req.getTransaction h)) fun tx =>
    bindN (callP (p.getTransactionReceipt h) (Req.getTransactionReceipt h)) fun receipt =>
    bindN (latestTxLoop p ts rest) fun tail =>
    match tx, receipt with
    | some t, some r => pureN (txRecord t r ts :: tail)
    | _, _ => pureN tail

/-- Model of `ChainDataService.getLatestTransactions`: read the latest block with
transaction bodies, take up to `count` hashes, resolve each to a record. -/
def ChainDataService.getLatestTransactions (svc : ChainDataService) (count : Nat) :
    NetM (List TransactionData) :=
  match svc.provider with
  | none => (Except.error "Provider not initialized", [])
  | some p =>
    bindN (callP p.latestBlockFull Req.getLatestBlockFull) fun ob =>
    match ob with
    | none => pureN []
    | some b => latestTxLoop p b.timestamp (b.transactions.take count)

/-- The `BlockData` object literal of `getLatestBlocks`. -/
def blockRecord (b : Block) : BlockData :=
  { number := b.number
    hash := b.hash.getD ""
    timestamp := b.timestamp
    transactions := b.transactions.length
    gasUsed := toString b.gasUsed
    gasLimit := toString b.gasLimit
    miner := b.miner }

/-- The loop of `getLatestBlocks` over the block numbers
`latest, latest-1, ...`: fetch each block, skip null results. -/
def latestBlocksLoop (p : Provider) : List Int → NetM (List BlockData)
  | [] => pureN []
  | n :: rest =>
    bindN (callP (p.getBlockByNumber n) (Req.getBlockByNumber n)) fun ob =>
    bindN (latestBlocksLoop p rest) fun tail =>
    match ob with
    | some b => pureN (blockRecord b :: tail)
    | none => pureN tail

/-- Model of `ChainDataService.getLatestBlocks`. -/
def ChainDataService.getLatestBlocks (svc : ChainDataService) (count : Nat) :
    NetM (List BlockData) :=
  match svc.provider with
  | none => (Except.error "Provider not initialized", [])
  | some p =>
    bindN (callP p.blockNumber Req.getBlockNumber) fun latest =>
    latestBlocksLoop p ((List.range count).map (fun i : Nat => latest - (i : Int)))

/-- Model of `ChainDataService.getAccountBalance`. -/
def ChainDataService.getAccountBalance (svc : ChainDataService) (address : String) :
    NetM AccountBalance :=
  match svc.provider with
  | none => (Except.error "Provider not initialized", [])
  | some p =>
    bindN (callP (p.getBalance address) (Req.getBalance address)) fun bal =>
    pureN { address := address, balance := toString bal, balanceInEth := formatEther bal }

/-- The case-insensitive sender/recipient test of
`searchTransactionsByAddress`
(`tx.from.toLowerCase() === address.toLowerCase() || (tx.to && ...)`). -/
def addressMatches (tx : Tx) (address : String) : Bool :=
  jsToLower tx.sender == jsToLower address ||
    (match tx.toAddr with
     | some t => jsToLower t == jsToLower address
     | none => false)

/-- Inner loop of `searchTransactionsByAddress` over one block's
transaction hashes: fetch each transaction, and for a sender/recipient
match fetch the receipt, push a record when the receipt is non-null, and
break out as soon as `limit` records have been collected. -/
def searchBlockTxs (p : Provider) (address : String) (limit : Nat) (ts : Int) :
    List String → List TransactionData → NetM (List TransactionData)
  | [], acc => pureN acc
  | h :: rest, acc =>
    bindN (callP (p.getTransaction h) (Req.getTransaction h)) fun tx =>
    match tx with
    | some t =>
      if addressMatches t address then
        bindN (callP (p.getTransactionReceipt h) (Req.getTransactionReceipt h)) fun receipt =>
        match receipt with
        | some r =>
          if limit ≤ (acc ++ [txRecord t r ts]).length then pureN (acc ++ [txRecord t r ts])
          else searchBlockTxs p address limit ts rest (acc ++ [txRecord t r ts])
        | none =>
          if limit ≤ acc.length then pureN acc
          else searchBlockTxs p address limit ts rest acc
      else searchBlockTxs p address limit ts rest acc
    | none => searchBlockTxs p address limit ts rest acc

/-- Outer loop of `searchTransactionsByAddress` over the (at most 100)
block numbers of the scan window, stopping once `limit` records are
collected; a null block is skipped (`continue`). -/
def searchLoop (p : Provider) (address : String) (limit : Nat) :
    List Int → List TransactionData → NetM (List TransactionData)
  | [], acc => pureN acc
  | n :: rest, acc =>
    if acc.length < limit then
      bindN (callP (p.getBlockFull n) (Req.getBlockFull n)) fun ob =>
      match ob with
      | none => searchLoop p address limit rest acc
      | some b =>
        bindN (searchBlockTxs p address limit b.timestamp b.transactions acc) fun acc' =>
        searchLoop p address limit rest acc'
    else pureN acc

/-- Model of `ChainDataService.searchTransactionsByAddress`: scan backward from
the current block height across a window of `maxBlocksToSearch = 100`
blocks. -/
def ChainDataService.searchTransactionsByAddress (svc : ChainDataService)
    (address : String) (limit : Nat) : NetM (List TransactionData) :=
  match svc.provider with
  | none => (Except.error "Provider not initialized", [])
  | some p =>
    bindN (callP p.blockNumber Req.getBlockNumber) fun latest =>
    searchLoop p address limit ((List.range 100).map (fun i : Nat => latest - (i : Int))) []

/-! ## Transfer form (`TransferForm.tsx`) -/

/-- The transfer status state machine of `TransferForm`. -/
inductive TxStatus where
  | idle
  | preparing
  | pending
  | confirmed
  | failed
deriving DecidableEq, BEq, Repr

/-- A JavaScript error as caught by the handlers: an optional numeric
wallet error code (4001 user-rejected, -32603 internal) and a message. -/
structure JsErr where
  code : Option Int
  message : String
deriving DecidableEq, BEq, Repr

/-- The wallet/RPC interactions issued by `handleSubmit`. -/
inductive WalletCall where
  | ethAccounts
  | getSigner
  | sendTransaction (toAddr : String) (value : Int) (data : Option String)
  | waitForConfirmations (hash : String) (confirmations : Nat)
deriving DecidableEq, BEq, Repr

/-- Observable events of one `handleSubmit` run, in program order. -/
inductive Ev where
  | alert (msg : String)
  | setError (msg : String)
  | setTxHashEv (h : String)
  | setStatus (s : TxStatus)
  | setProgress (n : Nat)
  | setStep (s : String)
  | call (c : WalletCall)
  | startProgressTimer
  | clearProgressTimer
  | refreshHistory
  | resetForm
  | scheduleProgressReset
  | scheduleStatusReset
deriving DecidableEq, BEq, Repr

/-- The three form fields of `TransferFormData`. -/
structure TransferFormData where
  recipientAddress : String
  amount : String
  inputData : String
deriving DecidableEq, BEq, Repr

/-- Environment of one submission: wallet presence, the ethers library
functions (`isAddress`, `parseEther`), and the responses of the wallet
interactions in the order the handler awaits them. -/
structure TransferEnv where
  hasEthereum : Bool
  isAddress : String → Bool
  parseEther : String → Except JsErr Int
  ethAccounts : Except JsErr (List String)
  getSigner : Except JsErr Unit
  sendTransaction : Except JsErr String
  waitTx : Except JsErr Unit

/-- Error classification of the `catch` block of `handleSubmit`. -/
def transferErrorMessage (e : JsErr) : String :=
  if e.code = some 4001 then "用户取消了交易"
  else if e.code = some (-32603) then "余额不足或网络错误"
  else if e.message ≠ "" then e.message
  else "转账失败"

/-- Events of the `catch` block of `handleSubmit`. -/
def catchEvents (e : JsErr) : List Ev :=
  [Ev.setStatus TxStatus.failed, Ev.setError (transferErrorMessage e),
   Ev.setProgress 0, Ev.setStep ""]

namespace TransferForm

/-- The `try` block of `TransferForm.handleSubmit`
(`TransferForm.tsx` lines 208-303). -/
def handleSubmitTry (env : TransferEnv) (fd : TransferFormData) : List Ev :=
  [Ev.setStep "检查钱包连接...", Ev.setProgress 10, Ev.call WalletCall.ethAccounts] ++
  match env.ethAccounts with
  | Except.error e => catchEvents e
  | Except.ok accounts =>
    if accounts.length = 0 then
      [Ev.alert "请先连接钱包", Ev.setStatus TxStatus.idle, Ev.setProgress 0, Ev.setStep ""]
    else
      [Ev.setStep "验证地址格式...", Ev.setProgress 20] ++
      if env.isAddress fd.recipientAddress = false then
        catchEvents { code := none, message := "接收方地址格式无效" }
      else
        [Ev.setStep "准备交易参数...", Ev.setProgress 30, Ev.call WalletCall.getSigner] ++
        match env.getSigner with
        | Except.error e => catchEvents e
        | Except.ok _ =>
          match env.parseEther fd.amount with
          | Except.error e => catchEvents e
          | Except.ok value =>
            if jsTrim fd.inputData ≠ "" ∧ jsStartsWith fd.inputData "0x" = false then
              catchEvents { code := none, message := "Input Data 必须以 0x 开头" }
            else
              [Ev.setStep "发送交易到区块链...", Ev.setProgress 40,
               Ev.setStatus TxStatus.pending,
               Ev.call (WalletCall.sendTransaction fd.recipientAddress value
                 (if jsTrim fd.inputData ≠ "" then some fd.inputData else none))] ++
              match env.sendTransaction with
              | Except.error e => catchEvents e
              | Except.ok hash =>
                [Ev.setTxHashEv hash, Ev.setStep "等待交易被矿工打包...", Ev.setProgress 60,
                 Ev.startProgressTimer, Ev.setStatus TxStatus.confirmed,
                 Ev.call (WalletCall.waitForConfirmations hash 1)] ++
                match env.waitTx with
                | Except.error e => catchEvents e
                | Except.ok _ =>
                  [Ev.clearProgressTimer, Ev.setStep "交易已被确认...", Ev.setProgress 85,
                   Ev.setStep "更新交易历史...", Ev.setProgress 95, Ev.refreshHistory,
                   Ev.setStep "转账完成!", Ev.setProgress 100, Ev.resetForm,
                   Ev.scheduleProgressReset]

/-- Model of `TransferForm.handleSubmit` (`TransferForm.tsx` lines 189-329) as an
event trace.  `status0` is the `txStatus` value captured by the handler's
closure when the form was rendered (the `finally` block reads this stale
value, and submission is only possible from `idle`). -/
def handleSubmit (env : TransferEnv) (fd : TransferFormData) (status0 : TxStatus) : List Ev :=
  if fd.recipientAddress = "" ∨ fd.amount = "" then
    [Ev.alert "请填写接收方地址和转账金额"]
  else if env.hasEthereum = false then
    [Ev.alert "请安装 MetaMask!"]
  else
    [Ev.setError "", Ev.setTxHashEv "", Ev.setStatus TxStatus.preparing,
     Ev.setProgress 0, Ev.setStep ""] ++
    handleSubmitTry env fd ++
    (if status0 ≠ TxStatus.confirmed then [Ev.scheduleStatusReset] else [])

/-- The successive values assigned to `txStatus` during a trace. -/
def statusChanges (tr : List Ev) : List TxStatus :=
  tr.filterMap (fun e => match e with
    | Ev.setStatus s => some s
    | _ => none)

/-- The wallet/RPC calls issued during a trace. -/
def walletCalls (tr : List Ev) : List WalletCall :=
  tr.filterMap (fun e => match e with
    | Ev.call c => some c
    | _ => none)

end TransferForm

/-! ## Transaction history scanner (`TransferForm.fetchTransactionHistory`) -/

/-- The status literal of the `TransactionHistory` interface. -/
inductive TxHistStatus where
  | success
  | failed
  | pending
deriving DecidableEq, BEq, Repr

/-- The `TransactionHistory` interface of `TransferForm.tsx`. -/
structure TransactionHistory where
  hash : String
  sender : String
  toAddr : String
  value : String
  gasUsed : String
  gasPrice : String
  timestamp : Int
  blockNumber : Int
  data : Option String
  status : TxHistStatus
deriving DecidableEq, BEq, Repr

/-- Environment of one history scan: wallet presence and the RPC
responses consulted by `fetchTransactionHistory`. -/
structure HistEnv where
  hasEthereum : Bool
  ethAccounts : Except JsErr (List String)
  blockNumber : Except JsErr Int
  getBlockFull : Int → Except JsErr (Option Block)
  getTransaction : String → Except JsErr (Option Tx)
  getTransactionReceipt : String → Except JsErr (Option Receipt)

/-- Outcome of `fetchTransactionHistory`: an early return without a
wallet or an authorized account, the scanned list handed to
`setTransactions`, or the user-visible hard error of the outer `catch`. -/
inductive FetchOutcome where
  | noWallet
  | noAccounts
  | success (txs : List TransactionHistory)
  | hardError (msg : String)
deriving Repr

namespace TransferForm

/-- Model of `formatInputData`: the bare `0x` becomes `undefined`. -/
def formatInputData (val : String) : Option String :=
  if val = "0x" then none else some val

/-- The case-insensitive relatedness test of the scanner
(`txData.from?.toLowerCase() === current... || txData.to?.toLowerCase() === ...`). -/
def histMatches (tx : Tx) (address : String) : Bool :=
  jsToLower tx.sender == jsToLower address ||
    (match tx.toAddr with
     | some t => jsToLower t == jsToLower address
     | none => false)

/-- The `TransactionHistory` object literal pushed by the scanner
(`gasUsed` is taken from `txData.gasLimit` in the source, and JavaScript
truthiness maps a zero or absent `gasPrice` to `"0"`). -/
def histRecord (tx : Tx) (status : TxHistStatus) (blockTs blockNum : Int) :
    TransactionHistory :=
  { hash := tx.hash
    sender := tx.sender
    toAddr := tx.toAddr.getD ""
    value := formatEther tx.value
    gasUsed := if tx.gasLimit = 0 then "0" else toString tx.gasLimit
    gasPrice := match tx.gasPrice with
      | some g => if g = 0 then "0" else formatUnits g 9
      | none => "0"
    timestamp := blockTs * 1000
    blockNumber := blockNum
    data := formatInputData tx.data
    status := status }

/-- The per-transaction status determination: the receipt fetch has its
own `try`/`catch` mapping a rejection to `pending`, and a fulfilled
receipt to `success` exactly when `receipt.status === 1`. -/
def receiptStatus (env : HistEnv) (hash : String) : TxHistStatus :=
  match env.getTransactionReceipt hash with
  | Except.error _ => TxHistStatus.pending
  | Except.ok r =>
    if (match r with
        | some rr => rr.status == some 1
        | none => false) then TxHistStatus.success
    else TxHistStatus.failed

/-- Scan one block's transaction hashes.  The Boolean result records
whether a fetch threw (`getTransaction` rejected, or returned `null`
triggering the non-null assertion `!` in the source): the throw
propagates to the per-batch `catch`, but records already pushed onto the
outer array survive. -/
def scanTxs (env : HistEnv) (addr : String) (blockTs blockNum : Int) :
    List String → List TransactionHistory × Bool
  | [] => ([], false)
  | h :: rest =>
    match env.getTransaction h with
    | Except.error _ => ([], true)
    | Except.ok none => ([], true)
    | Except.ok (some t) =>
      if histMatches t addr then
        let r := histRecord t (receiptStatus env t.hash) blockTs blockNum
        let tail := scanTxs env addr blockTs blockNum rest
        (r :: tail.1, tail.2)
      else scanTxs env addr blockTs blockNum rest

/-- Scan the (already fetched) blocks of one batch, skipping null blocks;
a throw while scanning a block abandons the rest of the batch. -/
def scanBlocks (env : HistEnv) (addr : String) :
    List (Option Block) → List TransactionHistory × Bool
  | [] => ([], false)
  | none :: rest => scanBlocks env addr rest
  | some b :: rest =>
    let here := scanTxs env addr b.timestamp b.number b.transactions
    if here.2 then (here.1, true)
    else
      let tail := scanBlocks env addr rest
      (here.1 ++ tail.1, tail.2)

/-- The inclusive integer range `[lo, hi]`. -/
def intRangeIncl (lo hi : Int) : List Int :=
  (List.range (hi + 1 - lo).toNat).map (fun k : Nat => lo + (k : Int))

/-- The `Promise.all` over the block fetches of one batch: rejects whenever
one fetch rejects. -/
def fetchBatchBlocks (env : HistEnv) : List Int → Except JsErr (List (Option Block))
  | [] => Except.ok []
  | n :: rest =>
    match env.getBlockFull n with
    | Except.error e => Except.error e
    | Except.ok b =>
      match fetchBatchBlocks env rest with
      | Except.error e => Except.error e
      | Except.ok t => Except.ok (b :: t)

/-- One batch of the scan (`try { ... } catch { continue }`): a rejected
block fetch skips the whole batch; a throw during scanning keeps the
records pushed so far and skips the rest of the batch. -/
def processBatch (env : HistEnv) (addr : String) (startB endB : Int) :
    List TransactionHistory :=
  match fetchBatchBlocks env (intRangeIncl startB endB) with
  | Except.error _ => []
  | Except.ok blocks => (scanBlocks env addr blocks).1

/-- Start indices of the batches: `for (let i = fromBlock; i <= currentBlock; i += 50)`. -/
def batchStarts (fromBlock currentBlock : Int) : List Int :=
  (List.range (((currentBlock + 1 - fromBlock).toNat + 49) / 50)).map
    (fun k : Nat => fromBlock + 50 * (k : Int))

/-- Sort a list of history records by descending timestamp
(`realTransactions.sort((a, b) => b.timestamp - a.timestamp)`; JavaScript
`Array.prototype.sort` is stable). -/
def sortHistDesc (l : List TransactionHistory) : List TransactionHistory :=
  List.insertionSort (fun a b => b.timestamp ≤ a.timestamp) l

/-- Model of `TransferForm.fetchTransactionHistory` (`TransferForm.tsx` lines
82-187): scan the last 500 blocks in batches of 50 for transactions of
the connected address, sort descending by timestamp.  Only a rejection
of `eth_accounts` or `getBlockNumber` reaches the outer `catch`. -/
def fetchTransactionHistory (env : HistEnv) : FetchOutcome :=
  if env.hasEthereum = false then FetchOutcome.noWallet
  else
    match env.ethAccounts with
    | Except.error _ => FetchOutcome.hardError "获取交易历史失败，请检查网络连接或稍后重试"
    | Except.ok [] => FetchOutcome.noAccounts
    | Except.ok (addr :: _) =>
      match env.blockNumber with
      | Except.error _ => FetchOutcome.hardError "获取交易历史失败，请检查网络连接或稍后重试"
      | Except.ok currentBlock =>
        let fromBlock := max 0 (currentBlock - 500)
        let all := ((batchStarts fromBlock currentBlock).map
          (fun s => processBatch env addr s (min (s + 49) currentBlock))).flatten
        FetchOutcome.success (sortHistDesc all)

end TransferForm

/-! ## Network switching (`Header.handleNetworkChange`) -/

/-- A static network configuration entry. -/
structure Network where
  name : String
  chainId : Nat
  rpcUrl : String
  symbol : String
  explorer : Option String
deriving DecidableEq, BEq, Repr

/-- Hex chain-id string: 0x followed by the base-16 digits of the chain id. -/
def chainIdHex (n : Nat) : String :=
  "0x" ++ String.mk (Nat.toDigits 16 n)

/-- The wallet requests issued by `handleNetworkChange`. -/
inductive WalletReq where
  | switchChain (chainIdHexParam : String)
  | addChain (chainIdHexParam : String) (chainName : String) (rpcUrls : List String)
      (symbol : String) (blockExplorerUrls : Option (List String))
deriving DecidableEq, BEq, Repr

/-- Observable events of one `handleNetworkChange` run. -/
inductive HeaderEv where
  | setSelectedNetwork (n : Network)
  | closeDropdown
  | request (r : WalletReq)
  | updateWalletNetwork (n : Network)
  | alertMsg (s : String)
deriving DecidableEq, BEq, Repr

/-- Environment of one network change: wallet state presence,
`window.ethereum` presence, and the responses of the two wallet
requests. -/
structure HeaderEnv where
  hasWallet : Bool
  hasEthereum : Bool
  switchResult : Except JsErr Unit
  addResult : Except JsErr Unit

namespace Header

/-- Model of `Header.handleNetworkChange` (`Header.tsx` lines 171-217) as an
event trace: request `wallet_switchEthereumChain`; on error code 4902
request `wallet_addEthereumChain` with the target network's RPC URL and
native symbol and, on success, re-resolve the wallet state under the new
network. -/
def handleNetworkChange (env : HeaderEnv) (network : Network) : List HeaderEv :=
  [HeaderEv.setSelectedNetwork network, HeaderEv.closeDropdown] ++
  if env.hasWallet && env.hasEthereum then
    [HeaderEv.request (WalletReq.switchChain (chainIdHex network.chainId))] ++
    match env.switchResult with
    | Except.ok _ => [HeaderEv.updateWalletNetwork network]
    | Except.error e =>
      if e.code = some 4902 then
        [HeaderEv.request (WalletReq.addChain (chainIdHex network.chainId) network.name
          [network.rpcUrl] network.symbol (network.explorer.map (fun x => [x])))] ++
        match env.addResult with
        | Except.ok _ => [HeaderEv.updateWalletNetwork network]
        | Except.error _ => [HeaderEv.alertMsg ("添加 " ++ network.name ++ " 失败")]
      else [HeaderEv.alertMsg ("切换到 " ++ network.name ++ " 失败")]
  else []

/-- The wallet requests issued during a `handleNetworkChange` trace. -/
def headerReqs (tr : List HeaderEv) : List WalletReq :=
  tr.filterMap (fun e => match e with
    | HeaderEv.request r => some r
    | _ => none)

end Header

/-! ## Message registry history (`MessageForm.fetchMessageHistory`) -/

/-- A raw `MessageChanged` event as returned by `queryFilter`; `args`
is present exactly for `EventLog` entries and carries
`(sender, oldMessage, newMessage)`. -/
structure MsgEventRaw where
  transactionHash : String
  blockNumber : Int
  args : Option (String × String × String)
deriving DecidableEq, BEq, Repr

/-- The event-log filter handed to `queryFilter`: all `MessageChanged`
events, or the variant pre-filtered on the indexed sender topic. -/
inductive MsgFilter where
  | messageChangedAll
  | messageChangedBy (sender : String)
deriving DecidableEq, BEq, Repr

/-- The `MessageEvent` interface of `MessageForm.tsx` (the spec's
`MessageChangeEvent`). -/
structure MessageChangeEvent where
  transactionHash : String
  blockNumber : Int
  sender : String
  oldMessage : String
  newMessage : String
  timestamp : Int
deriving DecidableEq, BEq, Repr

/-- Environment of one history fetch: contract configuration presence,
the ethers `isAddress` predicate, the signer acquisition of
`getContract`, the event-log query, and block lookups for timestamps. -/
structure MsgEnv where
  hasConfig : Bool
  isAddress : String → Bool
  getSigner : Except JsErr Unit
  queryFilter : MsgFilter → Int → String → Except JsErr (List MsgEventRaw)
  getBlock : Int → Except JsErr (Option Block)

/-- Outcome of `fetchMessageHistory`: early return without contract
config, the sorted list handed to the event state (`filtered` records
whether only `setMessageEvents` was updated), or the user-visible error
of the `catch` block. -/
inductive MsgHistOutcome where
  | skipped
  | updated (events : List MessageChangeEvent) (filtered : Bool)
  | failedWith (msg : String)
deriving Repr

namespace MessageForm

/-- Resolve each raw event to a `MessageChangeEvent`, fetching its
block for the timestamp (`(block?.timestamp || 0) * 1000`); a rejected
block fetch propagates to the outer `catch`, entries without `args` are
skipped. -/
def msgHistLoop (env : MsgEnv) : List MsgEventRaw → Except JsErr (List MessageChangeEvent)
  | [] => Except.ok []
  | ev :: rest =>
    match env.getBlock ev.blockNumber with
    | Except.error e => Except.error e
    | Except.ok ob =>
      match msgHistLoop env rest with
      | Except.error e => Except.error e
      | Except.ok tail =>
        match ev.args with
        | some (s, o, n) =>
          Except.ok ({ transactionHash := ev.transactionHash
                       blockNumber := ev.blockNumber
                       sender := s
                       oldMessage := o
                       newMessage := n
                       timestamp := (match ob with
                         | some b => b.timestamp
                         | none => 0) * 1000 } :: tail)
        | none => Except.ok tail

/-- Sort message-change events by descending timestamp
(`messageHistory.sort((a, b) => b.timestamp - a.timestamp)`). -/
def sortMsgDesc (l : List MessageChangeEvent) : List MessageChangeEvent :=
  List.insertionSort (fun a b => b.timestamp ≤ a.timestamp) l

/-- The filter selection of `fetchMessageHistory`: a truthy
`filterSender` passing `ethers.isAddress` yields the sender-indexed
filter, anything else the unfiltered one. -/
def chosenFilter (env : MsgEnv) (filterSender : Option String) : MsgFilter :=
  match filterSender with
  | some s => if s ≠ "" ∧ env.isAddress s then MsgFilter.messageChangedBy s
              else MsgFilter.messageChangedAll
  | none => MsgFilter.messageChangedAll

/-- JavaScript truthiness of the `filterSender` argument. -/
def senderTruthy (filterSender : Option String) : Bool :=
  match filterSender with
  | some s => s != ""
  | none => false

/-- Model of `MessageForm.fetchMessageHistory` (`MessageForm.tsx` lines 255-312).
The second component records the single `queryFilter` request issued
(filter, fromBlock, toBlock), `none` when no query was issued.  A
truthy `filterSender` that passes `ethers.isAddress` selects the
sender-indexed filter; the query range is always `(0, "latest")`. -/
def fetchMessageHistory (env : MsgEnv) (filterSender : Option String) :
    MsgHistOutcome × Option (MsgFilter × Int × String) :=
  if env.hasConfig = false then (MsgHistOutcome.skipped, none)
  else
    match env.getSigner with
    | Except.error _ => (MsgHistOutcome.failedWith "获取合约数据失败，请检查网络连接", none)
    | Except.ok _ =>
      match env.queryFilter (chosenFilter env filterSender) 0 "latest" with
      | Except.error _ =>
        (MsgHistOutcome.failedWith "获取合约数据失败，请检查网络连接",
         some (chosenFilter env filterSender, 0, "latest"))
      | Except.ok events =>
        match msgHistLoop env events with
        | Except.error _ =>
          (MsgHistOutcome.failedWith "获取合约数据失败，请检查网络连接",
           some (chosenFilter env filterSender, 0, "latest"))
        | Except.ok history =>
          (MsgHistOutcome.updated (sortMsgDesc history) (senderTruthy filterSender),
           some (chosenFilter env filterSender, 0, "latest"))

end MessageForm

/-- Decidable equality of RPC responses. -/
instance exceptDecEq {ε α : Type} [DecidableEq ε] [DecidableEq α] :
    DecidableEq (Except ε α) := fun x y =>
  match x, y with
  | Except.ok a, Except.ok b =>
    if h : a = b then isTrue (by rw [h])
    else isFalse (fun hc => h (Except.ok.inj hc))
  | Except.error a, Except.error b =>
    if h : a = b then isTrue (by rw [h])
    else isFalse (fun hc => h (Except.error.inj hc))
  | Except.ok _, Except.error _ => isFalse (fun hc => Except.noConfusion hc)
  | Except.error _, Except.ok _ => isFalse (fun hc => Except.noConfusion hc)

/-- Totality of descending-timestamp comparison on history records. -/
instance instHistDescTotal :
    IsTotal TransactionHistory (fun a b => b.timestamp ≤ a.timestamp) :=
  ⟨fun a b => le_total b.timestamp a.timestamp⟩

/-- Transitivity of descending-timestamp comparison on history records. -/
instance instHistDescTrans :
    IsTrans TransactionHistory (fun a b => b.timestamp ≤ a.timestamp) :=
  ⟨fun _ _ _ hab hbc => le_trans hbc hab⟩

/-- Totality of descending-timestamp comparison on message events. -/
instance instMsgDescTotal :
    IsTotal MessageChangeEvent (fun a b => b.timestamp ≤ a.timestamp) :=
  ⟨fun a b => le_total b.timestamp a.timestamp⟩

/-- Transitivity of descending-timestamp comparison on message events. -/
instance instMsgDescTrans :
    IsTrans MessageChangeEvent (fun a b => b.timestamp ≤ a.timestamp) :=
  ⟨fun _ _ _ hab hbc => le_trans hbc hab⟩

/-! ## Specification predicates -/

/-- A returned record concerns `address`: its sender or recipient equals
`address` up to lower-casing. -/
def MatchesAddr (address : String) (r : TransactionData) : Prop :=
  jsToLower r.sender = jsToLower address ∨
    ∃ t, r.toAddr = some t ∧ jsToLower t = jsToLower address

/-- The chain invariant that block timestamps never decrease with the
block number (enforced by consensus on every real chain: a block's
timestamp exceeds its parent's). -/
def MonotoneTimestamps (p : Provider) : Prop :=
  ∀ m n : Int, ∀ bm bn : Block,
    p.getBlockFull m = Except.ok (some bm) →
    p.getBlockFull n = Except.ok (some bn) →
    m ≤ n → bm.timestamp ≤ bn.timestamp

/-- The scan window of `searchTransactionsByAddress`: the 100 block
numbers `latest, latest-1, ...`. -/
def windowList (latest : Int) : List Int :=
  (List.range 100).map (fun i : Nat => latest - (i : Int))

/-- Block `n` is cleanly scannable for `address`: its fetch succeeds, and
every transaction fetch inside it succeeds without matching `address`
(the receipt is never consulted for a non-match). -/
def blockClean (p : Provider) (address : String) (n : Int) : Bool :=
  match p.getBlockFull n with
  | Except.error _ => false
  | Except.ok none => true
  | Except.ok (some b) => b.transactions.all (fun h =>
      match p.getTransaction h with
      | Except.error _ => false
      | Except.ok none => true
      | Except.ok (some t) => !(addressMatches t address))

/-- An `Except` value that is not a rejection. -/
def isOkE {ε α : Type} : Except ε α → Bool
  | Except.ok _ => true
  | Except.error _ => false

/-! ## Concrete scenario fixtures -/

/-- C6 scenario: the latest block, holding three transactions. -/
def b6 : Block :=
  { number := 100, hash := some "0xblock100", timestamp := 1700000000
    transactions := ["0xt1", "0xt2", "0xt3"]
    gasUsed := 63000, gasLimit := 30000000, miner := "0xminer" }

/-- C6 scenario: the transaction objects of the latest block. -/
def tx6 (h sender : String) : Tx :=
  { hash := h, blockNumber := some 100, sender := sender, toAddr := some "0xbob"
    value := 0, gasPrice := some 1000000000, gasLimit := 21000, data := "0x" }

/-- C6 scenario provider: all fetches succeed; transactions 1 and 2
executed successfully (receipt status 1), transaction 3 failed
(receipt status 0). -/
def p6 : Provider :=
  { blockNumber := Except.ok 100
    latestBlockFull := Except.ok (some b6)
    getBlockFull := fun _ => Except.ok none
    getBlockByNumber := fun _ => Except.ok none
    getTransaction := fun h =>
      if h = "0xt1" then Except.ok (some (tx6 "0xt1" "0xalice"))
      else if h = "0xt2" then Except.ok (some (tx6 "0xt2" "0xcarol"))
      else if h = "0xt3" then Except.ok (some (tx6 "0xt3" "0xdave"))
      else Except.ok none
    getTransactionReceipt := fun h =>
      if h = "0xt1" then Except.ok (some { gasUsed := 21000, status := some 1 })
      else if h = "0xt2" then Except.ok (some { gasUsed := 21000, status := some 1 })
      else if h = "0xt3" then Except.ok (some { gasUsed := 31000, status := some 0 })
      else Except.ok none
    getBalance := fun _ => Except.ok 0 }

/-- C4 counterexample provider: the latest block has two transactions;
fetching the first one rejects (network failure) while the second one's
transaction and receipt fetches would succeed. -/
def p4 : Provider :=
  { blockNumber := Except.ok 100
    latestBlockFull := Except.ok (some { b6 with transactions := ["0xh1", "0xh2"] })
    getBlockFull := fun _ => Except.ok none
    getBlockByNumber := fun _ => Except.ok none
    getTransaction := fun h =>
      if h = "0xh2" then Except.ok (some (tx6 "0xh2" "0xcarol"))
      else Except.error "network failure"
    getTransactionReceipt := fun h =>
      if h = "0xh2" then Except.ok (some { gasUsed := 21000, status := some 1 })
      else Except.error "network failure"
    getBalance := fun _ => Except.ok 0 }

/-- C4 witness provider: all fetches fulfil, but the first transaction
resolves to `null` while the second resolves fully. -/
def p4w : Provider :=
  { blockNumber := Except.ok 100
    latestBlockFull := Except.ok (some { b6 with transactions := ["0xh1", "0xh2"] })
    getBlockFull := fun _ => Except.ok none
    getBlockByNumber := fun _ => Except.ok none
    getTransaction := fun h =>
      if h = "0xh2" then Except.ok (some (tx6 "0xh2" "0xcarol"))
      else Except.ok none
    getTransactionReceipt := fun h =>
      if h = "0xh2" then Except.ok (some { gasUsed := 21000, status := some 1 })
      else Except.ok none
    getBalance := fun _ => Except.ok 0 }

/-- C1 witness: transaction in the latest block (sender matches the
searched address up to case). -/
def txW1 : Tx :=
  { hash := "0xw1", blockNumber := some 1, sender := "0xAA", toAddr := some "0xBB"
    value := 0, gasPrice := some 0, gasLimit := 21000, data := "0x" }

/-- C1 witness: transaction in the parent block (recipient matches the
searched address up to case). -/
def txW0 : Tx :=
  { hash := "0xw0", blockNumber := some 0, sender := "0xCC", toAddr := some "0xaa"
    value := 0, gasPrice := some 0, gasLimit := 21000, data := "0x" }

/-- C1 witness: latest block (number 1, timestamp 200). -/
def blkW1 : Block :=
  { number := 1, hash := some "0xb1", timestamp := 200, transactions := ["0xw1"]
    gasUsed := 0, gasLimit := 0, miner := "0xm" }

/-- C1 witness: parent block (number 0, timestamp 100). -/
def blkW0 : Block :=
  { number := 0, hash := some "0xb0", timestamp := 100, transactions := ["0xw0"]
    gasUsed := 0, gasLimit := 0, miner := "0xm" }

/-- C1 witness provider: a two-block chain with monotone timestamps and
one matching transaction per block. -/
def pW : Provider :=
  { blockNumber := Except.ok 1
    latestBlockFull := Except.ok none
    getBlockFull := fun n =>
      if n = 1 then Except.ok (some blkW1)
      else if n = 0 then Except.ok (some blkW0)
      else Except.ok none
    getBlockByNumber := fun _ => Except.ok none
    getTransaction := fun h =>
      if h = "0xw1" then Except.ok (some txW1)
      else if h = "0xw0" then Except.ok (some txW0)
      else Except.ok none
    getTransactionReceipt := fun _ => Except.ok (some { gasUsed := 21000, status := some 1 })
    getBalance := fun _ => Except.ok 0 }

/-- C7 witness provider: a one-block chain whose only transaction
involves neither the searched address as sender nor as recipient. -/
def pC7 : Provider :=
  { blockNumber := Except.ok 1
    latestBlockFull := Except.ok none
    getBlockFull := fun n =>
      if n = 1 then Except.ok (some blkW1) else Except.ok none
    getBlockByNumber := fun _ => Except.ok none
    getTransaction := fun h =>
      if h = "0xw1" then Except.ok (some txW1) else Except.ok none
    getTransactionReceipt := fun _ => Except.ok (some { gasUsed := 21000, status := some 1 })
    getBalance := fun _ => Except.ok 0 }

/-- C2 happy-path environment: wallet installed, one authorized account,
checksum validation passes, the wallet accepts the broadcast, the
network confirms it. -/
def envHappy : TransferEnv :=
  { hasEthereum := true
    isAddress := fun a => a == "0x70997970C51812dc3A010C7d01b50e0d17dc79C8"
    parseEther := fun s =>
      if s = "1" then Except.ok 1000000000000000000
      else Except.error { code := none, message := "invalid FixedNumber string value" }
    ethAccounts := Except.ok ["0xf39Fd6e51aad88F6F4ce6aB8827279cffFb92266"]
    getSigner := Except.ok ()
    sendTransaction := Except.ok "0xtxhash"
    waitTx := Except.ok () }

/-- C2 happy-path form data: valid recipient, positive amount, no call
data. -/
def fdHappy : TransferFormData :=
  { recipientAddress := "0x70997970C51812dc3A010C7d01b50e0d17dc79C8"
    amount := "1", inputData := "" }

/-- C3 counterexample environment: wallet installed and connected, but
the entered recipient fails checksum validation (`isAddress` false, as
for the string below, whose mixed case fails the EIP-55 keccak check). -/
def envC3 : TransferEnv :=
  { hasEthereum := true
    isAddress := fun _ => false
    parseEther := fun _ => Except.ok 1000000000000000000
    ethAccounts := Except.ok ["0xf39Fd6e51aad88F6F4ce6aB8827279cffFb92266"]
    getSigner := Except.ok ()
    sendTransaction := Except.ok "0xtxhash"
    waitTx := Except.ok () }

/-- C3 counterexample form data: non-empty but checksum-invalid
recipient. -/
def fdC3 : TransferFormData :=
  { recipientAddress := "0x70997970C51812DC3A010C7D01B50E0D17DC7999"
    amount := "1", inputData := "" }

/-- C5 target network (Sepolia; chain id 11155111 = 0xaa36a7). -/
def netSepolia : Network :=
  { name := "Sepolia", chainId := 11155111, rpcUrl := "https://rpc.sepolia.org"
    symbol := "ETH", explorer := some "https://sepolia.etherscan.io" }

/-- C5 environment: the wallet rejects the switch with code 4902
(chain unknown) and fulfils the add-chain request. -/
def envC5 : HeaderEnv :=
  { hasWallet := true, hasEthereum := true
    switchResult := Except.error { code := some 4902, message := "Unrecognized chain ID" }
    addResult := Except.ok () }

/-- C9 witness: the single block of the second batch. -/
def blkB9 : Block :=
  { number := 50, hash := some "0xb50", timestamp := 500, transactions := ["0xbt"]
    gasUsed := 21000, gasLimit := 30000000, miner := "0xm" }

/-- C9 witness environment: the current height is 50, so the scan covers
blocks 0-50 in two batches (0-49 and 50-50).  Every block fetch of the
first batch rejects; the second batch succeeds and contains one
transaction of the connected address. -/
def envW9 : HistEnv :=
  { hasEthereum := true
    ethAccounts := Except.ok ["0xaa"]
    blockNumber := Except.ok 50
    getBlockFull := fun n =>
      if n = 50 then Except.ok (some blkB9)
      else Except.error { code := none, message := "batch fetch failed" }
    getTransaction := fun h =>
      if h = "0xbt" then
        Except.ok (some { hash := "0xbt", blockNumber := some 50, sender := "0xAA"
                          toAddr := some "0xBB", value := 0, gasPrice := some 0
                          gasLimit := 21000, data := "0x" })
      else Except.ok none
    getTransactionReceipt := fun _ => Except.ok (some { gasUsed := 21000, status := some 1 }) }

/-- C8 witness environment: configuration loaded, signer available, two
`MessageChanged` events on record. -/
def envM8 : MsgEnv :=
  { hasConfig := true
    isAddress := fun x => x == "0xcEd80C46bc309AD789DA0fC5E0C1dafBF433fe96"
    getSigner := Except.ok ()
    queryFilter := fun _ _ _ => Except.ok
      [{ transactionHash := "0xe1", blockNumber := 10
         args := some ("0xcEd80C46bc309AD789DA0fC5E0C1dafBF433fe96", "hi", "hello") },
       { transactionHash := "0xe2", blockNumber := 20
         args := some ("0xcEd80C46bc309AD789DA0fC5E0C1dafBF433fe96", "hello", "world") }]
    getBlock := fun n =>
      if n = 10 then Except.ok (some { blkW0 with number := 10, timestamp := 1000 })
      else if n = 20 then Except.ok (some { blkW0 with number := 20, timestamp := 2000 })
      else Except.ok none }

/-- C6 scenario: the expected three records. -/
def c6List : List TransactionData :=
  [txRecord (tx6 "0xt1" "0xalice") { gasUsed := 21000, status := some 1 } 1700000000,
   txRecord (tx6 "0xt2" "0xcarol") { gasUsed := 21000, status := some 1 } 1700000000,
   txRecord (tx6 "0xt3" "0xdave") { gasUsed := 31000, status := some 0 } 1700000000]

/-- C1 witness: the two expected records of the search. -/
def cW1List : List TransactionData :=
  [txRecord txW1 { gasUsed := 21000, status := some 1 } 200,
   txRecord txW0 { gasUsed := 21000, status := some 1 } 100]

/-! # Theorems -/

theorem bindN_fst_error {α β : Type} (e : String) (log : List Req) (k : α → NetM β) :
    bindN (Except.error e, log) k = (Except.error e, log) := rfl

theorem bindN_fst_ok {α β : Type} (a : α) (log : List Req) (k : α → NetM β) :
    bindN (Except.ok a, log) k = ((k a).1, log ++ (k a).2) := rfl

/-- C10: with no injected wallet, the service's provider is `none` and
every public operation fails with "Provider not initialized", issuing no
RPC request (the request log is empty) and returning no data. -/
theorem chainDataService_requires_provider (count : Nat) (address : String) (limit : Nat) :
    (mkChainDataService none).getLatestTransactions count
        = (Except.error "Provider not initialized", []) ∧
    (mkChainDataService none).getLatestBlocks count
        = (Except.error "Provider not initialized", []) ∧
    (mkChainDataService none).getAccountBalance address
        = (Except.error "Provider not initialized", []) ∧
    (mkChainDataService none).searchTransactionsByAddress address limit
        = (Except.error "Provider not initialized", []) :=
  ⟨rfl, rfl, rfl, rfl⟩

/-- C6: on a latest block with exactly 3 transactions of which 2
succeeded and 1 failed, with all fetches fulfilled,
`getLatestTransactions 3` returns exactly 3 records whose status fields
match the execution outcomes (1, 1, 0) and whose block numbers all equal
the latest block's number 100. -/
theorem latest_transactions_three_tx_scenario :
    ((mkChainDataService (some ⟨p6⟩)).getLatestTransactions 3).1 = Except.ok c6List ∧
    c6List.length = 3 ∧
    c6List.map (fun r => r.status) = [1, 1, 0] ∧
    ∀ r ∈ c6List, r.blockNumber = 100 :=
  ⟨of_decide_eq_true (by rfl), of_decide_eq_true (by rfl), of_decide_eq_true (by rfl), by
    simp only [c6List, List.mem_cons, List.not_mem_nil, or_false]
    rintro r (rfl | rfl | rfl) <;> rfl⟩

/-- C2 (bug demonstration): on a happy-path submission with a valid
recipient and positive amount, the status passes exactly through
preparing, pending, confirmed (from idle) — but the handler assigns
`confirmed` *before* issuing `tx.wait(1)`, i.e. before the network can
have reported the single configured confirmation. -/
theorem transfer_happy_path_confirmed_before_wait :
    TransferForm.statusChanges (TransferForm.handleSubmit envHappy fdHappy TxStatus.idle) =
      [TxStatus.preparing, TxStatus.pending, TxStatus.confirmed] ∧
    (TransferForm.handleSubmit envHappy fdHappy TxStatus.idle).indexOf
        (Ev.setStatus TxStatus.confirmed) <
      (TransferForm.handleSubmit envHappy fdHappy TxStatus.idle).indexOf
        (Ev.call (WalletCall.waitForConfirmations "0xtxhash" 1)) ∧
    (TransferForm.handleSubmit envHappy fdHappy TxStatus.idle).indexOf
        (Ev.call (WalletCall.waitForConfirmations "0xtxhash" 1)) <
      (TransferForm.handleSubmit envHappy fdHappy TxStatus.idle).length :=
  ⟨of_decide_eq_true (by rfl), of_decide_eq_true (by rfl), of_decide_eq_true (by rfl)⟩

/-- C3 counterexample: a submission whose non-empty recipient fails
checksum validation still issues the `eth_accounts` wallet call and
leaves the transfer status at `failed` (not `idle`): the claim that no
network call is issued and the status remains idle is false. -/
theorem transfer_invalid_address_cex :
    TransferForm.walletCalls (TransferForm.handleSubmit envC3 fdC3 TxStatus.idle) =
      [WalletCall.ethAccounts] ∧
    TransferForm.statusChanges (TransferForm.handleSubmit envC3 fdC3 TxStatus.idle) =
      [TxStatus.preparing, TxStatus.failed] := by decide

/-- C4 counterexample: when fetching the first transaction of the latest
block rejects, the whole `getLatestTransactions` call rethrows the error
and returns no records, although the second transaction's fetches would
have succeeded: a per-transaction fetch failure *is* fatal to the batch. -/
theorem getLatestTransactions_throw_is_fatal :
    ((mkChainDataService (some ⟨p4⟩)).getLatestTransactions 10).1 =
      Except.error "network failure" ∧
    p4.getTransaction "0xh2" = Except.ok (some (tx6 "0xh2" "0xcarol")) ∧
    p4.getTransactionReceipt "0xh2" =
      Except.ok (some { gasUsed := 21000, status := some 1 }) := by decide

/-- C5 counterexample: after the wallet rejects the switch with code
4902, the component issues the add-chain request (carrying the target's
RPC URL and symbol) but performs no retry of the switch: the
`wallet_switchEthereumChain` request is issued exactly once in total. -/
theorem network_switch_no_retry_cex :
    Header.headerReqs (Header.handleNetworkChange envC5 netSepolia) =
      [WalletReq.switchChain "0xaa36a7",
       WalletReq.addChain "0xaa36a7" "Sepolia" ["https://rpc.sepolia.org"] "ETH"
         (some ["https://sepolia.etherscan.io"])] := by decide

/-- C5 (amended): for every network-switch where the wallet rejects
with code 4902 and fulfils the add-chain request, the component issues
`wallet_switchEthereumChain` once, then `wallet_addEthereumChain` with
the target's RPC URL and native symbol, and then re-resolves the wallet
state under the new network — without retrying the switch. -/
theorem network_switch_add_chain_no_retry (env : HeaderEnv) (net : Network) (e : JsErr)
    (hw : env.hasWallet = true) (he : env.hasEthereum = true)
    (hs : env.switchResult = Except.error e) (hc : e.code = some 4902)
    (ha : env.addResult = Except.ok ()) :
    Header.handleNetworkChange env net =
      [HeaderEv.setSelectedNetwork net, HeaderEv.closeDropdown,
       HeaderEv.request (WalletReq.switchChain (chainIdHex net.chainId)),
       HeaderEv.request (WalletReq.addChain (chainIdHex net.chainId) net.name
         [net.rpcUrl] net.symbol (net.explorer.map (fun x => [x]))),
       HeaderEv.updateWalletNetwork net] := by
  simp [Header.handleNetworkChange, hw, he, hs, hc, ha]

/-- C5 witness: the amended behavior at the concrete Sepolia switch. -/
theorem network_switch_add_chain_no_retry_witness :
    Header.handleNetworkChange envC5 netSepolia =
      [HeaderEv.setSelectedNetwork netSepolia, HeaderEv.closeDropdown,
       HeaderEv.request (WalletReq.switchChain (chainIdHex netSepolia.chainId)),
       HeaderEv.request (WalletReq.addChain (chainIdHex netSepolia.chainId) netSepolia.name
         [netSepolia.rpcUrl] netSepolia.symbol (netSepolia.explorer.map (fun x => [x]))),
       HeaderEv.updateWalletNetwork netSepolia] :=
  network_switch_add_chain_no_retry envC5 netSepolia
    { code := some 4902, message := "Unrecognized chain ID" } rfl rfl rfl rfl rfl

/-- C3 (amended): a submission whose non-empty recipient fails checksum
validation (with a non-empty amount, an installed wallet and a connected
account) issues exactly one wallet call — `eth_accounts` — and no
broadcast; the status passes preparing → failed with the user-visible
message "接收方地址格式无效", and a delayed reset to idle is scheduled.
(Only an empty recipient or amount is rejected before any wallet call,
via the initial alert; amount positivity is never validated.) -/
theorem transfer_invalid_address_behavior (env : TransferEnv) (fd : TransferFormData)
    (a : String) (accRest : List String)
    (h1 : fd.recipientAddress ≠ "") (h2 : fd.amount ≠ "")
    (h3 : env.hasEthereum = true)
    (h4 : env.ethAccounts = Except.ok (a :: accRest))
    (h5 : env.isAddress fd.recipientAddress = false) :
    TransferForm.walletCalls (TransferForm.handleSubmit env fd TxStatus.idle) =
      [WalletCall.ethAccounts] ∧
    TransferForm.statusChanges (TransferForm.handleSubmit env fd TxStatus.idle) =
      [TxStatus.preparing, TxStatus.failed] ∧
    Ev.setError "接收方地址格式无效" ∈ TransferForm.handleSubmit env fd TxStatus.idle ∧
    Ev.scheduleStatusReset ∈ TransferForm.handleSubmit env fd TxStatus.idle := by
  have hmain : TransferForm.handleSubmit env fd TxStatus.idle =
      [Ev.setError "", Ev.setTxHashEv "", Ev.setStatus TxStatus.preparing,
       Ev.setProgress 0, Ev.setStep "",
       Ev.setStep "检查钱包连接...", Ev.setProgress 10, Ev.call WalletCall.ethAccounts,
       Ev.setStep "验证地址格式...", Ev.setProgress 20,
       Ev.setStatus TxStatus.failed, Ev.setError "接收方地址格式无效",
       Ev.setProgress 0, Ev.setStep "", Ev.scheduleStatusReset] := by
    simp [TransferForm.handleSubmit, TransferForm.handleSubmitTry, h1, h2, h3, h4, h5,
      catchEvents, transferErrorMessage]
  rw [hmain]
  refine ⟨rfl, rfl, ?_, ?_⟩ <;> simp

/-- C3 witness: the amended behavior at a concrete submission with a
checksum-invalid recipient. -/
theorem transfer_invalid_address_behavior_witness :
    TransferForm.walletCalls (TransferForm.handleSubmit envC3 fdC3 TxStatus.idle) =
      [WalletCall.ethAccounts] ∧
    TransferForm.statusChanges (TransferForm.handleSubmit envC3 fdC3 TxStatus.idle) =
      [TxStatus.preparing, TxStatus.failed] ∧
    Ev.setError "接收方地址格式无效" ∈ TransferForm.handleSubmit envC3 fdC3 TxStatus.idle ∧
    Ev.scheduleStatusReset ∈ TransferForm.handleSubmit envC3 fdC3 TxStatus.idle :=
  transfer_invalid_address_behavior envC3 fdC3 "0xf39Fd6e51aad88F6F4ce6aB8827279cffFb92266" []
    (of_decide_eq_true (by rfl)) (of_decide_eq_true (by rfl)) rfl rfl rfl

/-- The loop of `getLatestTransactions`, when every per-transaction
fetch fulfils (possibly with `null`), returns exactly the records of the
hashes whose transaction and receipt are both non-null. -/
theorem latestTxLoop_all_fulfilled (p : Provider) (ts : Int) :
    ∀ l : List String,
      (∀ h ∈ l, isOkE (p.getTransaction h) = true ∧
        isOkE (p.getTransactionReceipt h) = true) →
      (latestTxLoop p ts l).1 = Except.ok (l.filterMap (fun h =>
        match p.getTransaction h, p.getTransactionReceipt h with
        | Except.ok (some t), Except.ok (some r) => some (txRecord t r ts)
        | _, _ => none)) := by
  intro l
  induction l with
  | nil => intro _; rfl
  | cons h rest ih =>
    intro hall
    obtain ⟨hh1, hh2⟩ := hall h (List.mem_cons_self h rest)
    have ihh := ih (fun x hx => hall x (List.mem_cons_of_mem h hx))
    cases htx : p.getTransaction h with
    | error e => rw [htx] at hh1; simp [isOkE] at hh1
    | ok ot =>
      cases hrc : p.getTransactionReceipt h with
      | error e => rw [hrc] at hh2; simp [isOkE] at hh2
      | ok orc =>
        simp only [latestTxLoop, htx, hrc, callP, bindN, List.filterMap_cons, ihh]
        cases ot <;> cases orc <;> simp [pureN]

/-- C4 (amended): if every per-transaction fetch of the latest block's
(first `count`) transactions fulfils, `getLatestTransactions` succeeds
and skips exactly the transactions whose transaction or receipt resolved
to `null`; a rejected fetch, by contrast, fails the whole call (see the
counterexample). -/
theorem getLatestTransactions_skips_null_results (p : Provider) (b : Block) (count : Nat)
    (hb : p.latestBlockFull = Except.ok (some b))
    (hok : ∀ h ∈ b.transactions.take count,
      isOkE (p.getTransaction h) = true ∧ isOkE (p.getTransactionReceipt h) = true) :
    ((mkChainDataService (some ⟨p⟩)).getLatestTransactions count).1 =
      Except.ok ((b.transactions.take count).filterMap (fun h =>
        match p.getTransaction h, p.getTransactionReceipt h with
        | Except.ok (some t), Except.ok (some r) => some (txRecord t r b.timestamp)
        | _, _ => none)) := by
  have hloop := latestTxLoop_all_fulfilled p b.timestamp (b.transactions.take count) hok
  simp only [ChainDataService.getLatestTransactions, mkChainDataService, Option.map,
    callP, bindN, hb]
  exact hloop

/-- C4 witness: on a latest block whose first transaction resolves to
`null` and whose second resolves fully, the call returns exactly the
second transaction's record. -/
theorem getLatestTransactions_skips_null_results_witness :
    ((mkChainDataService (some ⟨p4w⟩)).getLatestTransactions 10).1 =
      Except.ok [txRecord (tx6 "0xh2" "0xcarol") { gasUsed := 21000, status := some 1 }
        1700000000] :=
  (getLatestTransactions_skips_null_results p4w { b6 with transactions := ["0xh1", "0xh2"] }
    10 rfl (of_decide_eq_true (by rfl))).trans (of_decide_eq_true (by rfl))

/-- Scanning one block whose transactions all fetch cleanly without
matching the address leaves the accumulator untouched. -/
theorem searchBlockTxs_clean (p : Provider) (address : String) (limit : Nat) (ts : Int) :
    ∀ (txs : List String) (acc : List TransactionData),
      (∀ h ∈ txs,
        (match p.getTransaction h with
         | Except.error _ => false
         | Except.ok none => true
         | Except.ok (some t) => !(addressMatches t address)) = true) →
      (searchBlockTxs p address limit ts txs acc).1 = Except.ok acc := by
  intro txs
  induction txs with
  | nil => intro acc _; rfl
  | cons h rest ih =>
    intro acc hall
    have hh := hall h (List.mem_cons_self h rest)
    have hrest : ∀ x ∈ rest,
        (match p.getTransaction x with
         | Except.error _ => false
         | Except.ok none => true
         | Except.ok (some t) => !(addressMatches t address)) = true :=
      fun x hx => hall x (List.mem_cons_of_mem h hx)
    cases htx : p.getTransaction h with
    | error e => rw [htx] at hh; simp at hh
    | ok ot =>
      cases ot with
      | none =>
        simp only [searchBlockTxs, htx, callP, bindN]
        exact ih acc hrest
      | some t =>
        rw [htx] at hh
        simp only [Bool.not_eq_eq_eq_not, Bool.not_true] at hh
        simp only [searchBlockTxs, htx, callP, bindN, hh, Bool.false_eq_true, if_false]
        exact ih acc hrest

/-- The scan loop over cleanly-scannable, match-free blocks returns the
empty accumulator. -/
theorem searchLoop_clean (p : Provider) (address : String) (limit : Nat) :
    ∀ ns : List Int,
      (∀ n ∈ ns, blockClean p address n = true) →
      (searchLoop p address limit ns []).1 = Except.ok [] := by
  intro ns
  induction ns with
  | nil => intro _; rfl
  | cons n rest ih =>
    intro hall
    have hrest : ∀ m ∈ rest, blockClean p address m = true :=
      fun m hm => hall m (List.mem_cons_of_mem n hm)
    by_cases hl : ([] : List TransactionData).length < limit
    case neg =>
      simp only [searchLoop, if_neg hl]
      rfl
    case pos =>
      have hn := hall n (List.mem_cons_self n rest)
      unfold blockClean at hn
      cases hb : p.getBlockFull n with
      | error e => rw [hb] at hn; simp at hn
      | ok ob =>
        cases ob with
        | none =>
          simp only [searchLoop, if_pos hl, hb, callP, bindN]
          exact ih hrest
        | some b =>
          rw [hb] at hn
          have hclean := List.all_eq_true.mp hn
          have hinner := searchBlockTxs_clean p address limit b.timestamp b.transactions []
            (fun h hh => hclean h hh)
          cases hsb : searchBlockTxs p address limit b.timestamp b.transactions [] with
          | mk m1 m2 =>
            rw [hsb] at hinner
            simp only at hinner
            subst hinner
            simp only [searchLoop, if_pos hl, hb, callP, bindN, hsb]
            exact ih hrest

/-- C7: if the whole 100-block window scans cleanly and no transaction
in it has `address` as sender or recipient, `searchTransactionsByAddress`
returns the empty list (and no error). -/
theorem searchTransactionsByAddress_empty_when_no_match (p : Provider) (address : String)
    (limit : Nat) (latest : Int) (hbn : p.blockNumber = Except.ok latest)
    (hclean : ∀ n ∈ windowList latest, blockClean p address n = true) :
    ((mkChainDataService (some ⟨p⟩)).searchTransactionsByAddress address limit).1 =
      Except.ok [] := by
  have hmain := searchLoop_clean p address limit (windowList latest) hclean
  unfold windowList at hmain
  simp only [ChainDataService.searchTransactionsByAddress, mkChainDataService, Option.map,
    callP, bindN, hbn]
  exact hmain

/-- C7 witness: a one-block chain whose only transaction involves
neither "0xZZ" as sender nor as recipient yields the empty list. -/
theorem searchTransactionsByAddress_empty_when_no_match_witness :
    ((mkChainDataService (some ⟨pC7⟩)).searchTransactionsByAddress "0xZZ" 20).1 =
      Except.ok [] :=
  searchTransactionsByAddress_empty_when_no_match pC7 "0xZZ" 20 1 rfl
    (of_decide_eq_true (by rfl))

/-- A record pushed for a transaction passing the case-insensitive
match satisfies `MatchesAddr`. -/
theorem matchesAddr_txRecord (t : Tx) (address : String) (r : Receipt) (ts : Int)
    (h : addressMatches t address = true) : MatchesAddr address (txRecord t r ts) := by
  unfold addressMatches at h
  simp only [Bool.or_eq_true] at h
  rcases h with h1 | h2
  · exact Or.inl (by simpa [txRecord] using h1)
  · right
    cases hto : t.toAddr with
    | none => rw [hto] at h2; simp at h2
    | some t2 =>
      rw [hto] at h2
      exact ⟨t2, by simp [txRecord, hto], by simpa using h2⟩

/-- Invariants of the inner per-block loop of the search: starting below
the limit, a fulfilled run stays within the limit, only adds records of
matching transactions stamped with the block's timestamp, and preserves
descending-timestamp sortedness when the new timestamp is below all
accumulated ones. -/
theorem searchBlockTxs_spec (p : Provider) (address : String) (limit : Nat) (ts : Int) :
    ∀ (txs : List String) (acc res : List TransactionData),
      (searchBlockTxs p address limit ts txs acc).1 = Except.ok res →
      acc.length < limit →
      res.length ≤ limit ∧
      (∀ r ∈ res, r ∈ acc ∨ (r.timestamp = ts ∧ MatchesAddr address r)) ∧
      (List.Pairwise (fun x y => y.timestamp ≤ x.timestamp) acc →
        (∀ r ∈ acc, ts ≤ r.timestamp) →
        List.Pairwise (fun x y => y.timestamp ≤ x.timestamp) res) := by
  intro txs
  induction txs with
  | nil =>
    intro acc res hres hlt
    simp only [searchBlockTxs, pureN] at hres
    obtain rfl := Except.ok.inj hres
    exact ⟨Nat.le_of_lt hlt, fun r hr => Or.inl hr, fun hs _ => hs⟩
  | cons h rest ih =>
    intro acc res hres hlt
    cases htx : p.getTransaction h with
    | error e =>
      simp only [searchBlockTxs, htx, callP, bindN] at hres
      exact absurd hres (by simp)
    | ok ot =>
      cases ot with
      | none =>
        simp only [searchBlockTxs, htx, callP, bindN] at hres
        exact ih acc res hres hlt
      | some t =>
        by_cases hm : addressMatches t address = true
        case neg =>
          simp only [searchBlockTxs, htx, callP, bindN, if_neg hm] at hres
          exact ih acc res hres hlt
        case pos =>
          cases hrc : p.getTransactionReceipt h with
          | error e =>
            simp only [searchBlockTxs, htx, hrc, callP, bindN, if_pos hm] at hres
            exact absurd hres (by simp)
          | ok orc =>
            cases orc with
            | none =>
              simp only [searchBlockTxs, htx, hrc, callP, bindN, if_pos hm,
                if_neg (Nat.not_le.mpr hlt)] at hres
              exact ih acc res hres hlt
            | some rr =>
              by_cases hstop : limit ≤ (acc ++ [txRecord t rr ts]).length
              case pos =>
                simp only [searchBlockTxs, htx, hrc, callP, bindN, if_pos hm,
                  if_pos hstop, pureN] at hres
                obtain rfl := Except.ok.inj hres
                refine ⟨by simp; omega, ?_, ?_⟩
                · intro r hr
                  rcases List.mem_append.mp hr with h1 | h1
                  · exact Or.inl h1
                  · have heq : r = txRecord t rr ts := by simpa using h1
                    subst heq
                    exact Or.inr ⟨rfl, matchesAddr_txRecord t address rr ts hm⟩
                · intro hs hts
                  rw [List.pairwise_append]
                  refine ⟨hs, by simp, ?_⟩
                  intro a ha b hb
                  have heq : b = txRecord t rr ts := by simpa using hb
                  subst heq
                  exact hts a ha
              case neg =>
                simp only [searchBlockTxs, htx, hrc, callP, bindN, if_pos hm,
                  if_neg hstop] at hres
                have hlt' : (acc ++ [txRecord t rr ts]).length < limit :=
                  Nat.not_le.mp hstop
                obtain ⟨ih1, ih2, ih3⟩ := ih (acc ++ [txRecord t rr ts]) res hres hlt'
                refine ⟨ih1, ?_, ?_⟩
                · intro r hr
                  rcases ih2 r hr with h1 | h1
                  · rcases List.mem_append.mp h1 with h2 | h2
                    · exact Or.inl h2
                    · have heq : r = txRecord t rr ts := by simpa using h2
                      subst heq
                      exact Or.inr ⟨rfl, matchesAddr_txRecord t address rr ts hm⟩
                  · exact Or.inr h1
                · intro hs hts
                  apply ih3
                  · rw [List.pairwise_append]
                    refine ⟨hs, by simp, ?_⟩
                    intro a ha b hb
                    have heq : b = txRecord t rr ts := by simpa using hb
                    subst heq
                    exact hts a ha
                  · intro r hr
                    rcases List.mem_append.mp hr with h2 | h2
                    · exact hts r h2
                    · have heq : r = txRecord t rr ts := by simpa using h2
                      subst heq
                      exact le_refl ts

/-- Invariants of the outer scan loop: over a descending window of
block numbers on a monotone-timestamp chain, a fulfilled run yields at
most `limit` records, all matching the address, sorted by descending
timestamp. -/
theorem searchLoop_spec (p : Provider) (address : String) (limit : Nat)
    (hmono : MonotoneTimestamps p) :
    ∀ (ns : List Int) (acc res : List TransactionData),
      (searchLoop p address limit ns acc).1 = Except.ok res →
      acc.length ≤ limit →
      List.Pairwise (fun a b : Int => b ≤ a) ns →
      (∀ r ∈ acc, MatchesAddr address r) →
      List.Pairwise (fun x y => y.timestamp ≤ x.timestamp) acc →
      (∀ r ∈ acc, ∀ n ∈ ns, ∀ b : Block, p.getBlockFull n = Except.ok (some b) →
        b.timestamp ≤ r.timestamp) →
      res.length ≤ limit ∧ (∀ r ∈ res, MatchesAddr address r) ∧
        List.Pairwise (fun x y => y.timestamp ≤ x.timestamp) res := by
  intro ns
  induction ns with
  | nil =>
    intro acc res hres hlen _ hmatch hsort _
    simp only [searchLoop, pureN] at hres
    obtain rfl := Except.ok.inj hres
    exact ⟨hlen, hmatch, hsort⟩
  | cons n rest ih =>
    intro acc res hres hlen hns hmatch hsort hfut
    have hnsRest : List.Pairwise (fun a b : Int => b ≤ a) rest := hns.tail
    have hnsHead : ∀ m ∈ rest, m ≤ n := fun m hm => List.rel_of_pairwise_cons hns hm
    by_cases hg : acc.length < limit
    case neg =>
      simp only [searchLoop, if_neg hg, pureN] at hres
      obtain rfl := Except.ok.inj hres
      exact ⟨hlen, hmatch, hsort⟩
    case pos =>
      cases hb : p.getBlockFull n with
      | error e =>
        simp only [searchLoop, if_pos hg, hb, callP, bindN] at hres
        exact absurd hres (by simp)
      | ok ob =>
        cases ob with
        | none =>
          simp only [searchLoop, if_pos hg, hb, callP, bindN] at hres
          refine ih acc res hres hlen hnsRest hmatch hsort ?_
          intro r hr m hm b hbm
          exact hfut r hr m (List.mem_cons_of_mem n hm) b hbm
        | some b =>
          cases hsb : searchBlockTxs p address limit b.timestamp b.transactions acc with
          | mk m1 m2 =>
            simp only [searchLoop, if_pos hg, hb, callP, bindN, hsb] at hres
            cases m1 with
            | error e => exact absurd hres (by simp)
            | ok acc' =>
              have hinner : (searchBlockTxs p address limit b.timestamp
                  b.transactions acc).1 = Except.ok acc' := by rw [hsb]
              obtain ⟨hlen', hmem', hsort'⟩ :=
                searchBlockTxs_spec p address limit b.timestamp b.transactions acc acc'
                  hinner hg
              have haccts : ∀ r ∈ acc, b.timestamp ≤ r.timestamp :=
                fun r hr => hfut r hr n (List.mem_cons_self n rest) b hb
              have hmatch' : ∀ r ∈ acc', MatchesAddr address r := by
                intro r hr
                rcases hmem' r hr with h1 | h1
                · exact hmatch r h1
                · exact h1.2
              have hsortAcc' : List.Pairwise (fun x y => y.timestamp ≤ x.timestamp) acc' :=
                hsort' hsort haccts
              have hfut' : ∀ r ∈ acc', ∀ m ∈ rest, ∀ b' : Block,
                  p.getBlockFull m = Except.ok (some b') → b'.timestamp ≤ r.timestamp := by
                intro r hr m hm b' hbm
                rcases hmem' r hr with h1 | h1
                · exact hfut r h1 m (List.mem_cons_of_mem n hm) b' hbm
                · rw [h1.1]
                  exact hmono m n b' b hbm hb (hnsHead m hm)
              exact ih acc' res hres hlen' hnsRest hmatch' hsortAcc' hfut'

/-- The scan window is a strictly descending list of block numbers. -/
theorem windowList_pairwise (latest : Int) :
    List.Pairwise (fun a b : Int => b ≤ a) (windowList latest) := by
  unfold windowList
  rw [List.pairwise_map]
  refine (List.pairwise_lt_range 100).imp ?_
  intro a b hab
  omega

/-- C1: on a chain with monotone block timestamps, a fulfilled
`searchTransactionsByAddress address limit` returns at most `limit`
records, each having `address` as sender or recipient up to
case-insensitive comparison, sorted by descending block timestamp. -/
theorem searchTransactionsByAddress_props (p : Provider) (address : String) (limit : Nat)
    (hmono : MonotoneTimestamps p) (res : List TransactionData)
    (hres : ((mkChainDataService (some ⟨p⟩)).searchTransactionsByAddress address limit).1 =
      Except.ok res) :
    res.length ≤ limit ∧ (∀ r ∈ res, MatchesAddr address r) ∧
      List.Pairwise (fun x y => y.timestamp ≤ x.timestamp) res := by
  cases hbn : p.blockNumber with
  | error e =>
    simp only [ChainDataService.searchTransactionsByAddress, mkChainDataService,
      Option.map, callP, bindN, hbn] at hres
    exact absurd hres (by simp)
  | ok latest =>
    simp only [ChainDataService.searchTransactionsByAddress, mkChainDataService,
      Option.map, callP, bindN, hbn] at hres
    refine searchLoop_spec p address limit hmono
      ((List.range 100).map (fun i : Nat => latest - (i : Int))) [] res hres (by simp)
      ?_ (by intro r hr; cases hr) List.Pairwise.nil (by intro r hr; cases hr)
    have := windowList_pairwise latest
    unfold windowList at this
    exact this

/-- The C1 witness chain has monotone block timestamps. -/
theorem pW_monotone : MonotoneTimestamps pW := by
  intro m n bm bn h1 h2 hmn
  unfold pW at h1 h2
  simp only at h1 h2
  by_cases hm1 : m = 1 <;> by_cases hn1 : n = 1 <;>
    by_cases hm0 : m = 0 <;> by_cases hn0 : n = 0 <;>
      simp [hm1, hn1, hm0, hn0] at h1 h2 <;> subst_vars <;> simp_all [blkW1, blkW0]

/-- C1 witness: the concrete two-block chain satisfies the hypotheses,
and its search yields the two matching records, within the limit,
matching the address, sorted by descending timestamp. -/
theorem searchTransactionsByAddress_props_witness :
    cW1List.length ≤ 5 ∧ (∀ r ∈ cW1List, MatchesAddr "0xAa" r) ∧
      List.Pairwise (fun x y => y.timestamp ≤ x.timestamp) cW1List :=
  searchTransactionsByAddress_props pW "0xAa" 5 pW_monotone cW1List
    (of_decide_eq_true (by rfl))

/-- C8: the message-change history is obtained through a single
event-log query over the contract's full indexed range (from block 0 to
"latest"); a given (truthy, checksum-valid) sender pre-filters the query
on the indexed sender topic, and an absent sender queries all events;
and for **every** call — whatever its sender filter argument — any list
that reaches the event state is sorted by descending timestamp. -/
theorem fetchMessageHistory_spec (env : MsgEnv) (s : String)
    (hc : env.hasConfig = true) (hs : env.getSigner = Except.ok ())
    (hne : s ≠ "") (hv : env.isAddress s = true) :
    (MessageForm.fetchMessageHistory env (some s)).2 =
      some (MsgFilter.messageChangedBy s, 0, "latest") ∧
    (MessageForm.fetchMessageHistory env none).2 =
      some (MsgFilter.messageChangedAll, 0, "latest") ∧
    (∀ (fs : Option String) (l : List MessageChangeEvent) (fl : Bool),
      (MessageForm.fetchMessageHistory env fs).1 = MsgHistOutcome.updated l fl →
      List.Pairwise (fun x y => y.timestamp ≤ x.timestamp) l) := by
  have hf : MessageForm.chosenFilter env (some s) = MsgFilter.messageChangedBy s := by
    simp [MessageForm.chosenFilter, hne, hv]
  have hf0 : MessageForm.chosenFilter env none = MsgFilter.messageChangedAll := rfl
  refine ⟨?_, ?_, ?_⟩
  · unfold MessageForm.fetchMessageHistory
    simp only [hc, hs, hf]
    cases hq : env.queryFilter (MsgFilter.messageChangedBy s) 0 "latest" with
    | error e => simp [hq]
    | ok evs =>
      cases hl : MessageForm.msgHistLoop env evs with
      | error e => simp [hq, hl]
      | ok hist => simp [hq, hl]
  · unfold MessageForm.fetchMessageHistory
    simp only [hc, hs, hf0]
    cases hq : env.queryFilter MsgFilter.messageChangedAll 0 "latest" with
    | error e => simp [hq]
    | ok evs =>
      cases hl : MessageForm.msgHistLoop env evs with
      | error e => simp [hq, hl]
      | ok hist => simp [hq, hl]
  · intro fs l fl hl
    unfold MessageForm.fetchMessageHistory at hl
    simp only [hc, hs] at hl
    cases hq : env.queryFilter (MessageForm.chosenFilter env fs) 0 "latest" with
    | error e => rw [hq] at hl; simp at hl
    | ok evs =>
      rw [hq] at hl
      simp at hl
      cases hloop : MessageForm.msgHistLoop env evs with
      | error e => rw [hloop] at hl; simp at hl
      | ok hist =>
        rw [hloop] at hl
        simp at hl
        obtain ⟨h1, -⟩ := hl
        subst h1
        exact List.sorted_insertionSort (fun a b => b.timestamp ≤ a.timestamp) hist

/-- C8 witness: the spec at a concrete environment with two recorded
events and a valid sender filter. -/
theorem fetchMessageHistory_spec_witness :
    (MessageForm.fetchMessageHistory envM8
        (some "0xcEd80C46bc309AD789DA0fC5E0C1dafBF433fe96")).2 =
      some (MsgFilter.messageChangedBy "0xcEd80C46bc309AD789DA0fC5E0C1dafBF433fe96",
        0, "latest") ∧
    (MessageForm.fetchMessageHistory envM8 none).2 =
      some (MsgFilter.messageChangedAll, 0, "latest") ∧
    (∀ (fs : Option String) (l : List MessageChangeEvent) (fl : Bool),
      (MessageForm.fetchMessageHistory envM8 fs).1 = MsgHistOutcome.updated l fl →
      List.Pairwise (fun x y => y.timestamp ≤ x.timestamp) l) :=
  fetchMessageHistory_spec envM8 "0xcEd80C46bc309AD789DA0fC5E0C1dafBF433fe96"
    rfl rfl (of_decide_eq_true (by rfl)) rfl

/-- C9: once the wallet, the account list and the block height resolve,
the batched history scan always completes with a result list — a batch
whose fetches reject only loses its own records, and every record
produced by any batch reaches the final (sorted) list; a rejection of
the height query itself, by contrast, surfaces the user-visible hard
error. -/
theorem fetchTransactionHistory_resilient (env : HistEnv) (addr : String)
    (accRest : List String) (cur : Int)
    (h1 : env.hasEthereum = true) (h2 : env.ethAccounts = Except.ok (addr :: accRest))
    (h3 : env.blockNumber = Except.ok cur) :
    (∃ l, TransferForm.fetchTransactionHistory env = FetchOutcome.success l ∧
      ∀ s ∈ TransferForm.batchStarts (max 0 (cur - 500)) cur,
        ∀ r ∈ TransferForm.processBatch env addr s (min (s + 49) cur), r ∈ l) ∧
    (∀ env2 : HistEnv, ∀ e : JsErr, env2.hasEthereum = true →
      env2.ethAccounts = Except.ok (addr :: accRest) →
      env2.blockNumber = Except.error e →
      TransferForm.fetchTransactionHistory env2 =
        FetchOutcome.hardError "获取交易历史失败，请检查网络连接或稍后重试") := by
  constructor
  · refine ⟨TransferForm.sortHistDesc ((TransferForm.batchStarts (max 0 (cur - 500)) cur).map
      (fun s => TransferForm.processBatch env addr s (min (s + 49) cur))).flatten, ?_, ?_⟩
    · unfold TransferForm.fetchTransactionHistory
      simp [h1, h2, h3]
    · intro s hs r hr
      have hmem : r ∈ ((TransferForm.batchStarts (max 0 (cur - 500)) cur).map
          (fun s => TransferForm.processBatch env addr s (min (s + 49) cur))).flatten :=
        List.mem_flatten.mpr ⟨_, List.mem_map_of_mem _ hs, hr⟩
      exact ((List.perm_insertionSort _ _).mem_iff).mpr hmem
  · intro env2 e he1 he2 he3
    unfold TransferForm.fetchTransactionHistory
    simp [he1, he2, he3]

/-- C9 witness: concrete environment where every block fetch of the
first batch rejects while the second batch fulfils and contains a
matching transaction. -/
theorem fetchTransactionHistory_resilient_witness :
    (∃ l, TransferForm.fetchTransactionHistory envW9 = FetchOutcome.success l ∧
      ∀ s ∈ TransferForm.batchStarts (max 0 ((50 : Int) - 500)) 50,
        ∀ r ∈ TransferForm.processBatch envW9 "0xaa" s (min (s + 49) 50), r ∈ l) ∧
    (∀ env2 : HistEnv, ∀ e : JsErr, env2.hasEthereum = true →
      env2.ethAccounts = Except.ok ("0xaa" :: []) →
      env2.blockNumber = Except.error e →
      TransferForm.fetchTransactionHistory env2 =
        FetchOutcome.hardError "获取交易历史失败，请检查网络连接或稍后重试") :=
  fetchTransactionHistory_resilient envW9 "0xaa" [] 50 rfl rfl rfl

end TransactionDemo
